import Mathlib

/-!
Verification of the shared model utilities of a Bluetooth-mesh SDK
(`models/model_spec/common/src/model_common.c`): the transition-time and
delay wire codecs, the transaction-id (TID) deduplication tracker, and the
chained model timer built on a single-shot hardware timer.

The C source file is the authority for every function modelled here.  The
headers (`model_common.h`, `app_timer.h`, `utils.h`) are not part of the
provided sources, so the numeric constants they define are modelled from the
specification document; each such definition carries a doc comment starting
with `Modelled from the spec:`.

Machine integers are modelled as `Nat`.  All quantities involved stay far
below `2^32` (resp. `2^64` for tick counters), and the C code performs no
wrapping arithmetic on the paths modelled here, so no explicit modulus is
needed except in the wraparound-safe counter difference, where it is made
explicit.
-/

/- ## Constants from model_common.c (lines 66-84) -/

/-- Source line 66: resolution selector for 100 ms steps. -/
def TRANSITION_TIME_STEP_RESOLUTION_100MS : Nat := 0x00

/-- Source line 67: resolution selector for 1 s steps. -/
def TRANSITION_TIME_STEP_RESOLUTION_1S : Nat := 0x40

/-- Source line 68: resolution selector for 10 s steps. -/
def TRANSITION_TIME_STEP_RESOLUTION_10S : Nat := 0x80

/-- Source line 69: resolution selector for 10 min steps. -/
def TRANSITION_TIME_STEP_RESOLUTION_10M : Nat := 0xC0

/-- Source line 71: mask of the two resolution bits. -/
def TRANSITION_TIME_STEP_MASK : Nat := 0xC0

/-- Complement of `TRANSITION_TIME_STEP_MASK` on a `uint8_t` operand: the C
expression `x & ~TRANSITION_TIME_STEP_MASK` keeps the low six bits. -/
def TRANSITION_TIME_STEP_MASK_LOW : Nat := 0x3F

/-- Source line 72: milliseconds per step at 100 ms resolution. -/
def TRANSITION_TIME_STEP_100MS_FACTOR : Nat := 100

/-- Source line 73: milliseconds per step at 1 s resolution. -/
def TRANSITION_TIME_STEP_1S_FACTOR : Nat := 1000

/-- Source line 74: milliseconds per step at 10 s resolution. -/
def TRANSITION_TIME_STEP_10S_FACTOR : Nat := 10 * 1000

/-- Source line 75: milliseconds per step at 10 min resolution. -/
def TRANSITION_TIME_STEP_10M_FACTOR : Nat := 10 * 60 * 1000

/-- Modelled from the spec: `TRANSITION_TIME_UNKNOWN` lives in
`model_common.h`, which is not among the provided sources.  The spec calls it
the reserved "unknown" bit pattern of the low six step bits; the reserved
step value is the all-ones six-bit pattern `0x3F` (step counts run 0..62). -/
def TRANSITION_TIME_UNKNOWN : Nat := 0x3F

/-- Modelled from the spec: `MODEL_TRANSITION_TIME_UNKNOWN` lives in
`model_common.h` (missing from the sources).  It is the decoded-side
"Unknown" sentinel, the maximum `uint32_t` value. -/
def MODEL_TRANSITION_TIME_UNKNOWN : Nat := 4294967295

/-- Modelled from the spec: `TRANSITION_TIME_STEP_100MS_MAX` lives in
`model_common.h` (missing from the sources).  Largest duration encodable at
100 ms resolution: 62 steps (step 63 is the reserved unknown pattern). -/
def TRANSITION_TIME_STEP_100MS_MAX : Nat := 6200

/-- Modelled from the spec: largest duration encodable at 1 s resolution,
62 steps (`model_common.h` is missing from the sources). -/
def TRANSITION_TIME_STEP_1S_MAX : Nat := 62000

/-- Modelled from the spec: largest duration encodable at 10 s resolution,
62 steps (`model_common.h` is missing from the sources). -/
def TRANSITION_TIME_STEP_10S_MAX : Nat := 620000

/-- Modelled from the spec: largest duration encodable at 10 min resolution,
62 steps (`model_common.h` is missing from the sources).  This is the named
ceiling the spec calls the 10-minute tier's maximum. -/
def TRANSITION_TIME_STEP_10M_MAX : Nat := 37200000

/-- Modelled from the spec: `DELAY_TIME_STEP_FACTOR_MS` lives in
`model_common.h` (missing from the sources).  The delay field is a linear
scale of 5 ms steps, as mandated by the mesh model protocol the spec's codec
section describes. -/
def DELAY_TIME_STEP_FACTOR_MS : Nat := 5

/-- Modelled from the spec: `DELAY_TIME_STEP_MAX` lives in `model_common.h`
(missing from the sources).  It is the maximum encoded value of the 8-bit
delay field, `0xFF`. -/
def DELAY_TIME_STEP_MAX : Nat := 255

/-- Modelled from the spec: `SEC_TO_US(6)` from `utils.h` (missing from the
sources); source line 78 defines `TID_VALIDATION_INTERVAL_US` as six seconds
in microseconds. -/
def TID_VALIDATION_INTERVAL_US : Nat := 6 * 1000000

/-- Modelled from the spec: `APP_TIMER_MIN_TIMEOUT_TICKS` lives in
`app_timer.h` (missing from the sources), the hardware timer's minimum
representable timeout in ticks (five RTC ticks). -/
def APP_TIMER_MIN_TIMEOUT_TICKS : Nat := 5

/-- Modelled from the spec: `MODEL_TIMER_MAX_TIMEOUT_TICKS` lives in
`model_common.h` (missing from the sources), the hardware timer's maximum
single-arm tick capacity, the full range of the 24-bit RTC counter. -/
def MODEL_TIMER_MAX_TIMEOUT_TICKS : Nat := 16777215

/-- Source line 84: the per-arm amount used by the chaining step, kept
`2 * APP_TIMER_MIN_TIMEOUT_TICKS` below the hardware capacity so that the
remainder after an arm never falls below the hardware minimum. -/
def APP_TIMER_MAX_TIMEOUT : Nat :=
  MODEL_TIMER_MAX_TIMEOUT_TICKS - APP_TIMER_MIN_TIMEOUT_TICKS * 2

/-- Modelled from the spec: wrap modulus of the 24-bit hardware counter
(`app_timer.h` is missing from the sources). -/
def APP_TIMER_CNT_MODULUS : Nat := 16777216

/-- Modelled from the spec: success status code (`nrf_error.h` is missing
from the sources). -/
def NRF_SUCCESS : Nat := 0

/-- Modelled from the spec: the invalid-parameter status code returned for a
duration below the hardware minimum (`nrf_error.h` is missing from the
sources). -/
def NRF_ERROR_INVALID_PARAM : Nat := 7

/-- Modelled from the spec: the null-binding status code (`nrf_error.h` is
missing from the sources). -/
def NRF_ERROR_NULL : Nat := 14

/- ## Time quantization codec (source lines 276-355) -/

/-- `model_transition_time_decode` (source lines 276-308): return the
unknown sentinel when the low six bits are the reserved pattern, otherwise
multiply the step count by the factor selected by the resolution bits.  The
`switch` on `enc & TRANSITION_TIME_STEP_MASK` becomes a chain of equality
tests; the unreachable `default` branch leaves `time = 0`. -/
def model_transition_time_decode (enc_transition_time : Nat) : Nat :=
  if enc_transition_time &&& TRANSITION_TIME_STEP_MASK_LOW = TRANSITION_TIME_UNKNOWN then
    MODEL_TRANSITION_TIME_UNKNOWN
  else if enc_transition_time &&& TRANSITION_TIME_STEP_MASK = TRANSITION_TIME_STEP_RESOLUTION_100MS then
    (enc_transition_time &&& TRANSITION_TIME_STEP_MASK_LOW) * TRANSITION_TIME_STEP_100MS_FACTOR
  else if enc_transition_time &&& TRANSITION_TIME_STEP_MASK = TRANSITION_TIME_STEP_RESOLUTION_1S then
    (enc_transition_time &&& TRANSITION_TIME_STEP_MASK_LOW) * TRANSITION_TIME_STEP_1S_FACTOR
  else if enc_transition_time &&& TRANSITION_TIME_STEP_MASK = TRANSITION_TIME_STEP_RESOLUTION_10S then
    (enc_transition_time &&& TRANSITION_TIME_STEP_MASK_LOW) * TRANSITION_TIME_STEP_10S_FACTOR
  else if enc_transition_time &&& TRANSITION_TIME_STEP_MASK = TRANSITION_TIME_STEP_RESOLUTION_10M then
    (enc_transition_time &&& TRANSITION_TIME_STEP_MASK_LOW) * TRANSITION_TIME_STEP_10M_FACTOR
  else
    0

/-- `model_transition_time_encode` (source lines 311-333): the result starts
as the unknown sentinel and the ascending threshold chain overwrites it with
the first tier whose maximum covers the input; past the last tier the
sentinel falls through. -/
def model_transition_time_encode (transition_time : Nat) : Nat :=
  if transition_time ≤ TRANSITION_TIME_STEP_100MS_MAX then
    (transition_time / TRANSITION_TIME_STEP_100MS_FACTOR) ||| TRANSITION_TIME_STEP_RESOLUTION_100MS
  else if transition_time ≤ TRANSITION_TIME_STEP_1S_MAX then
    (transition_time / TRANSITION_TIME_STEP_1S_FACTOR) ||| TRANSITION_TIME_STEP_RESOLUTION_1S
  else if transition_time ≤ TRANSITION_TIME_STEP_10S_MAX then
    (transition_time / TRANSITION_TIME_STEP_10S_FACTOR) ||| TRANSITION_TIME_STEP_RESOLUTION_10S
  else if transition_time ≤ TRANSITION_TIME_STEP_10M_MAX then
    (transition_time / TRANSITION_TIME_STEP_10M_FACTOR) ||| TRANSITION_TIME_STEP_RESOLUTION_10M
  else
    TRANSITION_TIME_UNKNOWN

/-- `model_transition_time_is_valid` (source lines 335-338). -/
def model_transition_time_is_valid (enc_transition_time : Nat) : Bool :=
  enc_transition_time &&& TRANSITION_TIME_STEP_MASK_LOW ≠ TRANSITION_TIME_UNKNOWN

/-- `model_delay_decode` (source lines 340-343): pure linear scale. -/
def model_delay_decode (enc_delay : Nat) : Nat :=
  enc_delay * DELAY_TIME_STEP_FACTOR_MS

/-- `model_delay_encode` (source lines 345-355): inputs above
`DELAY_TIME_STEP_MAX` return `DELAY_TIME_STEP_MAX` itself; otherwise floor
division by the step factor. -/
def model_delay_encode (delay : Nat) : Nat :=
  if DELAY_TIME_STEP_MAX < delay then
    DELAY_TIME_STEP_MAX
  else
    delay / DELAY_TIME_STEP_FACTOR_MS

/- ## Transaction deduplication tracker (source lines 167-171, 242-269) -/

/-- The fields of `tid_tracker_t` used by `model_tid_validate`.  The nested
`tid_expiry_timer` (a scheduler timer event) is modelled by whether its `cb`
field is non-null (`expiry_cb_set`) and by the absolute timestamp it is
scheduled to fire at (`expiry_timeout`). -/
structure tid_tracker_t where
  src : Nat
  dst : Nat
  old_tid : Nat
  message_id : Nat
  expiry_cb_set : Bool
  expiry_timeout : Nat
  new_transaction : Bool
deriving DecidableEq

/-- `model_tid_timer_cb` (source lines 167-171): the expiry callback nulls
the timer's own callback binding, closing the validity window. -/
def model_tid_timer_cb (p_item : tid_tracker_t) : tid_tracker_t :=
  { p_item with expiry_cb_set := false }

/-- `model_tid_validate` (source lines 242-269).  `now` is the value of
`timer_now()`; rescheduling the expiry timer is modelled by setting
`expiry_cb_set` and the absolute expiry timestamp.  Returns the value of
`p_tid_tracker->new_transaction` together with the updated tracker. -/
def model_tid_validate (p_tid_tracker : tid_tracker_t) (meta_src meta_dst : Nat)
    (message_id : Nat) (tid : Nat) (now : Nat) : Bool × tid_tracker_t :=
  if p_tid_tracker.src ≠ meta_src ∨
     p_tid_tracker.dst ≠ meta_dst ∨
     p_tid_tracker.old_tid ≠ tid ∨
     p_tid_tracker.message_id ≠ message_id ∨
     p_tid_tracker.expiry_cb_set = false then
    (true,
      { src := meta_src
        dst := meta_dst
        old_tid := tid
        message_id := message_id
        expiry_cb_set := true
        expiry_timeout := now + TID_VALIDATION_INTERVAL_US
        new_transaction := true })
  else
    (false, { p_tid_tracker with new_transaction := false })

/-- `model_transaction_is_new` (source lines 271-274). -/
def model_transaction_is_new (p_tid_tracker : tid_tracker_t) : Bool :=
  p_tid_tracker.new_transaction

/- ## Chained model timer (source lines 118-165, 357-412) -/

/-- `model_timer_mode_t`: single-shot or repeated logical timer. -/
inductive ModelTimerMode where
  | singleShot
  | repeated
deriving DecidableEq

/-- The fields of `model_timer_t` used by the timer functions.  The bound
callback pointer is modelled by its presence (`has_cb`); the exclusively
owned hardware slot lives in `TimerSys` below. -/
structure model_timer_t where
  has_cb : Bool
  mode : ModelTimerMode
  timeout_rtc_ticks : Nat
  remaining_ticks : Nat
  total_rtc_ticks : Nat
  last_rtc_stamp : Nat
  cb_active : Bool
deriving DecidableEq

/-- Modelled from the spec: `app_timer_cnt_diff_compute` from `app_timer.h`
(missing from the sources), the wraparound-safe unsigned difference on the
24-bit monotonic hardware counter. -/
def app_timer_cnt_diff_compute (ticks_to ticks_from : Nat) : Nat :=
  (ticks_to + APP_TIMER_CNT_MODULUS - ticks_from % APP_TIMER_CNT_MODULUS) % APP_TIMER_CNT_MODULUS

/-- `timeout_update_and_schedule` (source lines 118-136): one chaining step.
Returns the updated timer together with the tick amount passed to
`app_timer_start` (the hardware arm).  `app_timer_start` itself is a
hardware port and always reports success, so the C status value is omitted. -/
def timeout_update_and_schedule (p_timer : model_timer_t) : model_timer_t × Nat :=
  if MODEL_TIMER_MAX_TIMEOUT_TICKS < p_timer.remaining_ticks then
    ({ p_timer with remaining_ticks := p_timer.remaining_ticks - APP_TIMER_MAX_TIMEOUT },
      APP_TIMER_MAX_TIMEOUT)
  else
    ({ p_timer with remaining_ticks := 0 }, p_timer.remaining_ticks)

/-- `model_timer_cb` (source lines 138-165): the dispatch invoked on every
hardware expiry.  `f` is the effect the bound user callback has on the timer
state (it may itself call `model_timer_schedule`), returning the updated
timer and any hardware arms it performed; `now` is `app_timer_cnt_get()`.
Result: updated timer, the list of hardware arm amounts performed, and
whether the user callback was invoked. -/
def model_timer_cb (f : model_timer_t → model_timer_t × List Nat)
    (p_timer : model_timer_t) (now : Nat) : model_timer_t × List Nat × Bool :=
  let t1 := { p_timer with
    total_rtc_ticks :=
      p_timer.total_rtc_ticks + app_timer_cnt_diff_compute now p_timer.last_rtc_stamp
    last_rtc_stamp := now }
  let fired :=
    if t1.remaining_ticks = 0 then
      let ta := { t1 with cb_active := true }
      let fb := f ta
      let tc := { fb.1 with cb_active := false }
      let td :=
        if tc.mode = ModelTimerMode.repeated then
          { tc with remaining_ticks := tc.timeout_rtc_ticks }
        else tc
      (td, fb.2, true)
    else (t1, ([] : List Nat), false)
  if 0 < fired.1.remaining_ticks then
    let stepped := timeout_update_and_schedule fired.1
    (stepped.1, fired.2.1 ++ [stepped.2], fired.2.2)
  else
    (fired.1, fired.2.1, fired.2.2)

/-- A user callback that does not touch the timer: the default effect for
dispatch when the bound callback performs no timer call of its own. -/
def model_timer_user_noop : model_timer_t → model_timer_t × List Nat :=
  fun t => (t, [])

/-- `model_timer_schedule` (source lines 362-387) for a non-null timer
pointer.  Returns the status code, the updated timer, and the list of
hardware arms performed (the `app_timer_stop` call is visible in `TimerSys`
below). -/
def model_timer_schedule (p_timer : model_timer_t) (now : Nat) :
    Nat × model_timer_t × List Nat :=
  if p_timer.has_cb = false then
    (NRF_ERROR_NULL, p_timer, [])
  else if p_timer.timeout_rtc_ticks < APP_TIMER_MIN_TIMEOUT_TICKS then
    (NRF_ERROR_INVALID_PARAM, p_timer, [])
  else
    let t1 := { p_timer with
      remaining_ticks := p_timer.timeout_rtc_ticks
      last_rtc_stamp := now
      total_rtc_ticks := 0 }
    if t1.cb_active = false then
      let stepped := timeout_update_and_schedule t1
      (NRF_SUCCESS, stepped.1, [stepped.2])
    else
      (NRF_SUCCESS, t1, [])

/-- `model_timer_schedule` including the `p_timer == NULL` guard: a null
pointer is `none`. -/
def model_timer_schedule_ptr (p_timer : Option model_timer_t) (now : Nat) :
    Nat × Option model_timer_t × List Nat :=
  match p_timer with
  | none => (NRF_ERROR_NULL, none, [])
  | some t =>
    let r := model_timer_schedule t now
    (r.1, some r.2.1, r.2.2)

/-- The effect of a user callback that calls `model_timer_schedule` on its
own timer (the reentrant pattern of claim C3). -/
def model_timer_user_reschedule (now : Nat) : model_timer_t → model_timer_t × List Nat :=
  fun t => ((model_timer_schedule t now).2.1, (model_timer_schedule t now).2.2)

/-- `model_timer_abort` (source lines 389-397): stop the hardware slot and
zero the remaining, configured and elapsed tick counts. -/
def model_timer_abort (p_timer : model_timer_t) : model_timer_t :=
  { p_timer with
    remaining_ticks := 0
    timeout_rtc_ticks := 0
    total_rtc_ticks := 0 }

/-- `model_timer_elapsed_ticks_get` (source lines 357-360). -/
def model_timer_elapsed_ticks_get (p_timer : model_timer_t) : Nat :=
  p_timer.total_rtc_ticks

/- ## System traces: one model timer plus its hardware slot -/

/-- A model timer together with its exclusively owned hardware slot: `hw` is
the pending single-shot arm amount, `none` when the slot is stopped. -/
structure TimerSys where
  t : model_timer_t
  hw : Option Nat
deriving DecidableEq

/-- Events that can act on a timer between two observations: a
`model_timer_schedule` call, a `model_timer_abort` call, a hardware expiry
(which runs the dispatch `model_timer_cb` with a user callback that does not
touch the timer), and the caller writing a fresh `timeout_rtc_ticks` value
into the caller-owned structure. -/
inductive TimerEvent where
  | scheduleEv (now : Nat)
  | abortEv
  | fireEv (now : Nat)
  | setTimeoutEv (v : Nat)
deriving DecidableEq

/-- Whether an event is a `model_timer_schedule` call. -/
def isScheduleEv : TimerEvent → Bool
  | .scheduleEv _ => true
  | _ => false

/-- Whether an event writes `timeout_rtc_ticks`. -/
def isSetTimeoutEv : TimerEvent → Bool
  | .setTimeoutEv _ => true
  | _ => false

/-- One event acting on the system.  `model_timer_schedule` stops the slot
before re-arming on its success path and leaves everything untouched on its
error paths; a hardware expiry consumes the pending arm and then performs
whatever arm the dispatch chain step requests; `model_timer_abort` always
stops the slot. -/
def timerExec (s : TimerSys) : TimerEvent → TimerSys
  | .scheduleEv now =>
    let r := model_timer_schedule s.t now
    if r.1 = NRF_SUCCESS then
      { t := r.2.1, hw := r.2.2.head? }
    else
      { s with t := r.2.1 }
  | .abortEv => { t := model_timer_abort s.t, hw := none }
  | .fireEv now =>
    match s.hw with
    | none => s
    | some _ =>
      let r := model_timer_cb model_timer_user_noop s.t now
      { t := r.1, hw := r.2.1.head? }
  | .setTimeoutEv v => { s with t := { s.t with timeout_rtc_ticks := v } }

/-- Run a list of events on the system. -/
def timerRun (s : TimerSys) (evs : List TimerEvent) : TimerSys :=
  evs.foldl timerExec s

/- ## Claim C7 -/

/-- Claim C7: for every byte `b`, `model_transition_time_decode b` returns
the Unknown sentinel when the low 6 bits of `b` equal the reserved unknown
pattern, and otherwise returns `b &&& 0x3F` multiplied by 100, 1000, 10000
or 600000 milliseconds according to the top-2-bit resolution field. -/
theorem c7_transition_time_decode_characterization :
    ∀ b : Fin 256,
      model_transition_time_decode b.val =
        if b.val &&& 0x3F = TRANSITION_TIME_UNKNOWN then
          MODEL_TRANSITION_TIME_UNKNOWN
        else
          (b.val &&& 0x3F) *
            (if b.val / 64 = 0 then 100
             else if b.val / 64 = 1 then 1000
             else if b.val / 64 = 2 then 10000
             else 600000) := by
  set_option maxRecDepth 4096 in decide

/- ## Claim C8 -/

/-- Claim C8: for every duration strictly greater than the 10-minute tier's
maximum, `model_transition_time_encode` returns the reserved unknown
sentinel (all ascending-threshold branches fall through and the initial
sentinel value is returned); in particular it does not clamp such an input
to the largest tier's maximal encoding `62 ||| 0xC0`. -/
theorem c8_transition_time_encode_overflow :
    ∀ transition_time : Nat,
      TRANSITION_TIME_STEP_10M_MAX < transition_time →
        model_transition_time_encode transition_time = TRANSITION_TIME_UNKNOWN ∧
        model_transition_time_encode transition_time ≠
          (TRANSITION_TIME_STEP_10M_MAX / TRANSITION_TIME_STEP_10M_FACTOR) |||
            TRANSITION_TIME_STEP_RESOLUTION_10M := by
  intro t ht
  have h10m : TRANSITION_TIME_STEP_10M_MAX = 37200000 := rfl
  have henc : model_transition_time_encode t = TRANSITION_TIME_UNKNOWN := by
    unfold model_transition_time_encode
    rw [if_neg, if_neg, if_neg, if_neg]
    · simp only [TRANSITION_TIME_STEP_10M_MAX] at ht; omega
    · simp only [TRANSITION_TIME_STEP_10S_MAX]
      simp only [TRANSITION_TIME_STEP_10M_MAX] at ht; omega
    · simp only [TRANSITION_TIME_STEP_1S_MAX]
      simp only [TRANSITION_TIME_STEP_10M_MAX] at ht; omega
    · simp only [TRANSITION_TIME_STEP_100MS_MAX]
      simp only [TRANSITION_TIME_STEP_10M_MAX] at ht; omega
  refine ⟨henc, ?_⟩
  rw [henc]
  decide

/-- Claim C8, witness: the duration one above the 10-minute tier's maximum
encodes to the unknown sentinel, not to the largest tier's encoding. -/
theorem c8_transition_time_encode_overflow_witness :
    model_transition_time_encode 37200001 = TRANSITION_TIME_UNKNOWN ∧
    model_transition_time_encode 37200001 ≠
      (TRANSITION_TIME_STEP_10M_MAX / TRANSITION_TIME_STEP_10M_FACTOR) |||
        TRANSITION_TIME_STEP_RESOLUTION_10M :=
  c8_transition_time_encode_overflow 37200001 (by decide)

/- ## Claim C4 -/

/-- Claim C4, counterexample: at 300 ms — at or below the maximum delay on
either reading of "the maximum" (the clamp constant 255, or the largest
decodable delay 255 × 5 = 1275) — `model_delay_encode` returns the raw
constant `DELAY_TIME_STEP_MAX = 255`, not `min 300 255 / 5 = 51` and not
`300 / 5 = 60`, so the claimed formula `min(ms, MAX_DELAY) / factor` fails. -/
theorem c4_delay_encode_counterexample :
    model_delay_encode 300 = DELAY_TIME_STEP_MAX ∧
    model_delay_encode 300 ≠ min 300 DELAY_TIME_STEP_MAX / DELAY_TIME_STEP_FACTOR_MS ∧
    model_delay_encode 300 ≠ 300 / DELAY_TIME_STEP_FACTOR_MS := by
  decide

/-- Claim C4, amended: `model_delay_encode ms` equals `ms / factor` for `ms`
at or below `DELAY_TIME_STEP_MAX = 255`, and for `ms` above it returns the
constant `DELAY_TIME_STEP_MAX` itself (the maximum encoded byte value), not
the encoding `min(ms, MAX) / factor`; on the non-clamped range the
decode-encode round trip never exceeds the input. -/
theorem c4_delay_encode_amended :
    (∀ delay : Nat,
      model_delay_encode delay =
        if delay ≤ DELAY_TIME_STEP_MAX then delay / DELAY_TIME_STEP_FACTOR_MS
        else DELAY_TIME_STEP_MAX) ∧
    (∀ delay : Fin 256, model_delay_encode delay.val = delay.val / DELAY_TIME_STEP_FACTOR_MS) ∧
    (∀ delay : Fin 256, model_delay_decode (model_delay_encode delay.val) ≤ delay.val) := by
  refine ⟨?_, ?_, ?_⟩
  · intro delay
    unfold model_delay_encode
    rcases Nat.lt_or_ge DELAY_TIME_STEP_MAX delay with h | h
    · rw [if_pos h, if_neg (by omega)]
    · rw [if_neg (by omega), if_pos (by omega)]
  · set_option maxRecDepth 4096 in decide
  · set_option maxRecDepth 4096 in decide

/- ## Claim C1 -/

/-- Claim C1: `model_tid_validate` returns true (new transaction) exactly
when the tracker's expiry-timer callback is null or one of the stored
`src`, `dst`, `message_id`, `tid` differs from the message's values; a first
call (no open window) returns true and schedules the expiry timer six
seconds out, an immediate second call with identical arguments returns
false, and after the expiry callback has nulled itself the same call
returns true again. -/
theorem c1_tid_validate_characterization :
    (∀ (tr : tid_tracker_t) (s d mid tid now : Nat),
      (model_tid_validate tr s d mid tid now).1 = true ↔
        (tr.expiry_cb_set = false ∨
         tr.src ≠ s ∨ tr.dst ≠ d ∨ tr.message_id ≠ mid ∨ tr.old_tid ≠ tid)) ∧
    (∀ (tr : tid_tracker_t) (s d mid tid now : Nat),
      (model_tid_validate tr s d mid tid now).2.new_transaction =
        (model_tid_validate tr s d mid tid now).1) ∧
    (let tr0 : tid_tracker_t :=
      { src := 0, dst := 0, old_tid := 0, message_id := 0,
        expiry_cb_set := false, expiry_timeout := 0, new_transaction := false }
     let r1 := model_tid_validate tr0 0x10 0x20 5 3 1000
     let r2 := model_tid_validate r1.2 0x10 0x20 5 3 2000
     let r3 := model_tid_validate (model_tid_timer_cb r2.2) 0x10 0x20 5 3 8000000
     r1.1 = true ∧
     r1.2.expiry_timeout = 1000 + TID_VALIDATION_INTERVAL_US ∧
     r1.2.expiry_cb_set = true ∧
     r2.1 = false ∧
     r2.2 = { r1.2 with new_transaction := false } ∧
     r3.1 = true) := by
  refine ⟨?_, ?_, ?_⟩
  · intro tr s d mid tid now
    unfold model_tid_validate
    by_cases hp : tr.src ≠ s ∨ tr.dst ≠ d ∨ tr.old_tid ≠ tid ∨
        tr.message_id ≠ mid ∨ tr.expiry_cb_set = false
    · rw [if_pos hp]
      constructor
      · intro _
        tauto
      · intro _
        rfl
    · rw [if_neg hp]
      constructor
      · intro hx
        simp at hx
      · intro hc
        refine absurd ?_ hp
        tauto
  · intro tr s d mid tid now
    unfold model_tid_validate
    split <;> rfl
  · decide

/- ## Claim C2 -/

/-- Claim C2, counterexample: the chaining step does not arm
`min(remaining_ticks, C)` for either reading of the per-arm capacity `C`.
With `remaining_ticks = 16777210` (between `APP_TIMER_MAX_TIMEOUT` and
`MODEL_TIMER_MAX_TIMEOUT_TICKS`) the step arms the full 16777210 ticks,
exceeding `min(16777210, APP_TIMER_MAX_TIMEOUT) = 16777205`; with
`remaining_ticks = 16777216` the step arms `APP_TIMER_MAX_TIMEOUT =
16777205`, below `min(16777216, MODEL_TIMER_MAX_TIMEOUT_TICKS) =
16777215`. -/
theorem c2_chain_step_counterexample :
    (timeout_update_and_schedule
      { has_cb := true, mode := ModelTimerMode.singleShot,
        timeout_rtc_ticks := 16777210, remaining_ticks := 16777210,
        total_rtc_ticks := 0, last_rtc_stamp := 0, cb_active := false }).2 = 16777210 ∧
    (16777210 : Nat) ≠ min 16777210 APP_TIMER_MAX_TIMEOUT ∧
    (timeout_update_and_schedule
      { has_cb := true, mode := ModelTimerMode.singleShot,
        timeout_rtc_ticks := 16777216, remaining_ticks := 16777216,
        total_rtc_ticks := 0, last_rtc_stamp := 0, cb_active := false }).2 =
      APP_TIMER_MAX_TIMEOUT ∧
    APP_TIMER_MAX_TIMEOUT ≠ min 16777216 MODEL_TIMER_MAX_TIMEOUT_TICKS := by
  refine ⟨?_, by decide, ?_, by decide⟩
  · unfold timeout_update_and_schedule
    decide
  · unfold timeout_update_and_schedule
    decide

/-- Claim C2, amended: each chaining step decreases `remaining_ticks` by
exactly the armed amount and never arms more than the hardware capacity
`MODEL_TIMER_MAX_TIMEOUT_TICKS`; the armed amount is `APP_TIMER_MAX_TIMEOUT`
(the capacity minus twice the hardware minimum) when `remaining_ticks`
exceeds `MODEL_TIMER_MAX_TIMEOUT_TICKS`, and the whole of `remaining_ticks`
(which may exceed `APP_TIMER_MAX_TIMEOUT` by up to twice the hardware
minimum) otherwise.  Scheduling `D = 2 × APP_TIMER_MAX_TIMEOUT + 50` ticks
produces exactly two full re-arms of `APP_TIMER_MAX_TIMEOUT = 16777205`
ticks followed by one final re-arm of 50 ticks before the callback fires. -/
theorem c2_chain_step_amended :
    (∀ t : model_timer_t,
      t.remaining_ticks =
        (timeout_update_and_schedule t).1.remaining_ticks + (timeout_update_and_schedule t).2 ∧
      (timeout_update_and_schedule t).2 ≤ MODEL_TIMER_MAX_TIMEOUT_TICKS ∧
      (timeout_update_and_schedule t).2 =
        if MODEL_TIMER_MAX_TIMEOUT_TICKS < t.remaining_ticks then APP_TIMER_MAX_TIMEOUT
        else t.remaining_ticks) ∧
    (let t0 : model_timer_t :=
      { has_cb := true, mode := ModelTimerMode.singleShot,
        timeout_rtc_ticks := 2 * APP_TIMER_MAX_TIMEOUT + 50, remaining_ticks := 0,
        total_rtc_ticks := 0, last_rtc_stamp := 0, cb_active := false }
     let r0 := model_timer_schedule t0 0
     let r1 := model_timer_cb model_timer_user_noop r0.2.1 0
     let r2 := model_timer_cb model_timer_user_noop r1.1 0
     let r3 := model_timer_cb model_timer_user_noop r2.1 0
     r0.1 = NRF_SUCCESS ∧
     r0.2.2 = [APP_TIMER_MAX_TIMEOUT] ∧
     r1.2.1 = [APP_TIMER_MAX_TIMEOUT] ∧ r1.2.2 = false ∧
     r2.2.1 = [50] ∧ r2.2.2 = false ∧
     r3.2.1 = [] ∧ r3.2.2 = true) := by
  constructor
  · intro t
    have hC : APP_TIMER_MAX_TIMEOUT = 16777205 := rfl
    have hM : MODEL_TIMER_MAX_TIMEOUT_TICKS = 16777215 := rfl
    unfold timeout_update_and_schedule
    by_cases h : MODEL_TIMER_MAX_TIMEOUT_TICKS < t.remaining_ticks
    · rw [if_pos h]
      refine ⟨by simp; omega, by omega, by rw [if_pos h]⟩
    · rw [if_neg h]
      refine ⟨by simp, by omega, by rw [if_neg h]⟩
  · decide

/- ## Claim C10 -/

/-- The `remaining_ticks` component of one chaining step, as a function on
tick counts. -/
def chain_step_remaining (r : Nat) : Nat :=
  if MODEL_TIMER_MAX_TIMEOUT_TICKS < r then r - APP_TIMER_MAX_TIMEOUT else 0

/-- Iterating the chaining step from any starting tick count reaches zero
within `r + 1` steps: every step subtracts the positive constant
`APP_TIMER_MAX_TIMEOUT` or jumps straight to zero. -/
theorem chain_step_remaining_reaches_zero :
    ∀ (k r : Nat), r < k → chain_step_remaining^[k] r = 0 := by
  intro k
  induction k with
  | zero => intro r hr; omega
  | succ k ih =>
    intro r hr
    rw [Function.iterate_succ_apply]
    have hC : APP_TIMER_MAX_TIMEOUT = 16777205 := rfl
    have hM : MODEL_TIMER_MAX_TIMEOUT_TICKS = 16777215 := rfl
    by_cases h : MODEL_TIMER_MAX_TIMEOUT_TICKS < r
    · have hs : chain_step_remaining r = r - APP_TIMER_MAX_TIMEOUT := by
        unfold chain_step_remaining
        rw [if_pos h]
      rw [hs]
      exact ih _ (by omega)
    · have hs : chain_step_remaining r = 0 := by
        unfold chain_step_remaining
        rw [if_neg h]
      rw [hs]
      rcases k with _ | k
      · rfl
      · exact ih 0 (by omega)

/-- Claim C10: the re-arm chain always terminates.  Each
`timeout_update_and_schedule` step either subtracts the fixed positive
amount `APP_TIMER_MAX_TIMEOUT` from `remaining_ticks` (when it exceeds
`MODEL_TIMER_MAX_TIMEOUT_TICKS`) or sets it to zero, so from any finite
configured duration the chain reaches `remaining_ticks = 0` — hence fires
the callback — after finitely many (at most `remaining_ticks + 1`) hardware
re-arms. -/
theorem c10_chain_terminates :
    (∀ t : model_timer_t,
      (timeout_update_and_schedule t).1.remaining_ticks =
        chain_step_remaining t.remaining_ticks) ∧
    (∀ t : model_timer_t,
      t.remaining_ticks =
        (timeout_update_and_schedule t).1.remaining_ticks + (timeout_update_and_schedule t).2) ∧
    0 < APP_TIMER_MAX_TIMEOUT ∧
    (∀ r : Nat, chain_step_remaining^[r + 1] r = 0) := by
  refine ⟨?_, ?_, by decide, fun r => chain_step_remaining_reaches_zero (r + 1) r (by omega)⟩
  · intro t
    unfold timeout_update_and_schedule chain_step_remaining
    split <;> rfl
  · intro t
    have hC : APP_TIMER_MAX_TIMEOUT = 16777205 := rfl
    have hM : MODEL_TIMER_MAX_TIMEOUT_TICKS = 16777215 := rfl
    unfold timeout_update_and_schedule
    split
    · simp
      omega
    · simp

/- ## Claim C5 -/

/-- Claim C5: `model_timer_schedule` returns the null-binding error whenever
the timer pointer or its bound callback is absent (this check is first, so
it wins even when the duration is also invalid), and the invalid-duration
error whenever the configured tick count is below the hardware minimum; in
both error cases it returns before any mutation, leaving the timer state
unchanged and performing no hardware call. -/
theorem c5_schedule_validates_before_mutation :
    (∀ (t : model_timer_t) (now : Nat), t.has_cb = false →
      model_timer_schedule t now = (NRF_ERROR_NULL, t, [])) ∧
    (∀ (t : model_timer_t) (now : Nat), t.has_cb = true →
      t.timeout_rtc_ticks < APP_TIMER_MIN_TIMEOUT_TICKS →
      model_timer_schedule t now = (NRF_ERROR_INVALID_PARAM, t, [])) ∧
    (∀ now : Nat, model_timer_schedule_ptr none now = (NRF_ERROR_NULL, none, [])) := by
  refine ⟨?_, ?_, fun now => rfl⟩
  · intro t now h
    unfold model_timer_schedule
    rw [if_pos h]
  · intro t now h hlt
    unfold model_timer_schedule
    rw [if_neg (by simp [h]), if_pos hlt]

/-- Claim C5, witness: a timer with no bound callback (even with an invalid
duration as well) fails with the null-binding error, a bound timer with a
3-tick duration fails with the invalid-duration error, and a null timer
pointer fails with the null-binding error; no case mutates the timer. -/
theorem c5_schedule_validates_before_mutation_witness :
    model_timer_schedule
      { has_cb := false, mode := ModelTimerMode.singleShot, timeout_rtc_ticks := 3,
        remaining_ticks := 7, total_rtc_ticks := 9, last_rtc_stamp := 11, cb_active := false } 42 =
      (NRF_ERROR_NULL,
        { has_cb := false, mode := ModelTimerMode.singleShot, timeout_rtc_ticks := 3,
          remaining_ticks := 7, total_rtc_ticks := 9, last_rtc_stamp := 11, cb_active := false },
        []) ∧
    model_timer_schedule
      { has_cb := true, mode := ModelTimerMode.singleShot, timeout_rtc_ticks := 3,
        remaining_ticks := 7, total_rtc_ticks := 9, last_rtc_stamp := 11, cb_active := false } 42 =
      (NRF_ERROR_INVALID_PARAM,
        { has_cb := true, mode := ModelTimerMode.singleShot, timeout_rtc_ticks := 3,
          remaining_ticks := 7, total_rtc_ticks := 9, last_rtc_stamp := 11, cb_active := false },
        []) ∧
    model_timer_schedule_ptr none 42 = (NRF_ERROR_NULL, none, []) :=
  ⟨c5_schedule_validates_before_mutation.1 _ 42 rfl,
   c5_schedule_validates_before_mutation.2.1 _ 42 rfl (by decide),
   c5_schedule_validates_before_mutation.2.2 42⟩

/- ## Claim C3 -/

/-- Claim C3: a `model_timer_schedule` call made while the timer's own
callback is executing (`cb_active = true`) performs the bookkeeping resets
(`remaining_ticks` set to the configured duration, elapsed count zeroed,
clock sampled) and returns success without arming the hardware itself; when
the user callback invoked by dispatch is exactly such a reschedule, the
dispatch performs the single re-arm afterwards, so the schedule-from-callback
pattern produces exactly one hardware arm, never two. -/
theorem c3_reentrant_schedule_defers_arm :
    (∀ (t : model_timer_t) (now : Nat),
      t.cb_active = true → t.has_cb = true →
      APP_TIMER_MIN_TIMEOUT_TICKS ≤ t.timeout_rtc_ticks →
        model_timer_schedule t now =
          (NRF_SUCCESS,
            { t with remaining_ticks := t.timeout_rtc_ticks,
                     last_rtc_stamp := now, total_rtc_ticks := 0 },
            [])) ∧
    (∀ (t : model_timer_t) (now now2 : Nat),
      t.has_cb = true → t.remaining_ticks = 0 →
      APP_TIMER_MIN_TIMEOUT_TICKS ≤ t.timeout_rtc_ticks →
        (model_timer_cb (model_timer_user_reschedule now2) t now).2.1.length = 1 ∧
        (model_timer_cb (model_timer_user_reschedule now2) t now).2.2 = true) := by
  constructor
  · intro t now hact hcb hmin
    obtain ⟨hc, md, tov, rem, tot, las, act⟩ := t
    simp only at hact hcb hmin
    subst hact hcb
    have hlt : ¬ (tov < APP_TIMER_MIN_TIMEOUT_TICKS) := by omega
    simp [model_timer_schedule, hlt]
  · intro t now now2 hcb hrem hmin
    obtain ⟨hc, md, tov, rem, tot, las, act⟩ := t
    simp only at hcb hrem hmin
    subst hcb hrem
    have hlt : ¬ (tov < APP_TIMER_MIN_TIMEOUT_TICKS) := by omega
    have hpos : 0 < tov := by
      have : APP_TIMER_MIN_TIMEOUT_TICKS = 5 := rfl
      omega
    cases md <;>
      simp [model_timer_cb, model_timer_user_reschedule, model_timer_schedule,
        timeout_update_and_schedule, hlt, hpos]

/-- Claim C3, witness: a reentrant schedule on a concrete timer with a
100-tick duration resets the bookkeeping and arms nothing, and a dispatch
whose user callback performs that reschedule produces exactly one arm. -/
theorem c3_reentrant_schedule_defers_arm_witness :
    model_timer_schedule
      { has_cb := true, mode := ModelTimerMode.singleShot, timeout_rtc_ticks := 100,
        remaining_ticks := 0, total_rtc_ticks := 4, last_rtc_stamp := 2, cb_active := true } 7 =
      (NRF_SUCCESS,
        { has_cb := true, mode := ModelTimerMode.singleShot, timeout_rtc_ticks := 100,
          remaining_ticks := 100, total_rtc_ticks := 0, last_rtc_stamp := 7, cb_active := true },
        []) ∧
    ((model_timer_cb (model_timer_user_reschedule 3)
        { has_cb := true, mode := ModelTimerMode.singleShot, timeout_rtc_ticks := 100,
          remaining_ticks := 0, total_rtc_ticks := 0, last_rtc_stamp := 0,
          cb_active := false } 0).2.1.length = 1 ∧
      (model_timer_cb (model_timer_user_reschedule 3)
        { has_cb := true, mode := ModelTimerMode.singleShot, timeout_rtc_ticks := 100,
          remaining_ticks := 0, total_rtc_ticks := 0, last_rtc_stamp := 0,
          cb_active := false } 0).2.2 = true) :=
  ⟨c3_reentrant_schedule_defers_arm.1 _ 7 rfl rfl (by decide),
   c3_reentrant_schedule_defers_arm.2 _ 0 3 rfl rfl (by decide)⟩

/- ## Claim C6 -/

/-- Along any event sequence containing no `model_timer_schedule` call, a
system whose elapsed count is zero and whose hardware slot is stopped stays
that way: only a successful schedule can arm the slot, and only a hardware
expiry (which needs an armed slot) or a schedule can touch the elapsed
count. -/
theorem timerRun_keeps_total_zero :
    ∀ (evs : List TimerEvent) (s : TimerSys),
      (∀ e ∈ evs, isScheduleEv e = false) →
      s.t.total_rtc_ticks = 0 → s.hw = none →
      (timerRun s evs).t.total_rtc_ticks = 0 ∧ (timerRun s evs).hw = none := by
  intro evs
  induction evs with
  | nil => intro s _ h0 hw; exact ⟨h0, hw⟩
  | cons e evs ih =>
    intro s h h0 hw
    have he := h e (by simp)
    have hrest : ∀ e' ∈ evs, isScheduleEv e' = false := fun e' he' => h e' (by simp [he'])
    simp only [timerRun, List.foldl_cons]
    have hstep : (timerExec s e).t.total_rtc_ticks = 0 ∧ (timerExec s e).hw = none := by
      cases e with
      | scheduleEv now => simp [isScheduleEv] at he
      | abortEv => exact ⟨rfl, rfl⟩
      | fireEv now => simp [timerExec, hw, h0]
      | setTimeoutEv v => exact ⟨h0, hw⟩
    exact ih (timerExec s e) hrest hstep.1 hstep.2

/-- Claim C6: after `model_timer_abort` — called at any point, including
mid-chain — the timer has `remaining_ticks`, `timeout_rtc_ticks` and
`total_rtc_ticks` all zero and the hardware slot stopped, and along any
subsequent event sequence with no `model_timer_schedule` call (hardware
expiries and caller writes of the duration field included),
`model_timer_elapsed_ticks_get` stays 0 and the slot stays stopped. -/
theorem c6_abort_leaves_idle :
    ∀ (s : TimerSys) (evs : List TimerEvent),
      (∀ e ∈ evs, isScheduleEv e = false) →
        (model_timer_abort s.t).remaining_ticks = 0 ∧
        (model_timer_abort s.t).timeout_rtc_ticks = 0 ∧
        (model_timer_abort s.t).total_rtc_ticks = 0 ∧
        model_timer_elapsed_ticks_get (timerRun (timerExec s TimerEvent.abortEv) evs).t = 0 ∧
        (timerRun (timerExec s TimerEvent.abortEv) evs).hw = none := by
  intro s evs h
  have hrun := timerRun_keeps_total_zero evs (timerExec s TimerEvent.abortEv) h rfl rfl
  exact ⟨rfl, rfl, rfl, hrun.1, hrun.2⟩

/-- Claim C6, witness: aborting a concrete armed mid-chain timer and then
letting a (spurious) expiry and a caller duration write happen keeps the
elapsed count at zero and the slot stopped. -/
theorem c6_abort_leaves_idle_witness :
    (model_timer_abort
      { has_cb := true, mode := ModelTimerMode.singleShot, timeout_rtc_ticks := 20000000,
        remaining_ticks := 3222795, total_rtc_ticks := 16777205, last_rtc_stamp := 123,
        cb_active := false }).remaining_ticks = 0 ∧
    (model_timer_abort
      { has_cb := true, mode := ModelTimerMode.singleShot, timeout_rtc_ticks := 20000000,
        remaining_ticks := 3222795, total_rtc_ticks := 16777205, last_rtc_stamp := 123,
        cb_active := false }).timeout_rtc_ticks = 0 ∧
    (model_timer_abort
      { has_cb := true, mode := ModelTimerMode.singleShot, timeout_rtc_ticks := 20000000,
        remaining_ticks := 3222795, total_rtc_ticks := 16777205, last_rtc_stamp := 123,
        cb_active := false }).total_rtc_ticks = 0 ∧
    model_timer_elapsed_ticks_get
      (timerRun
        (timerExec
          { t := { has_cb := true, mode := ModelTimerMode.singleShot,
                   timeout_rtc_ticks := 20000000, remaining_ticks := 3222795,
                   total_rtc_ticks := 16777205, last_rtc_stamp := 123, cb_active := false },
            hw := some 3222795 }
          TimerEvent.abortEv)
        [TimerEvent.fireEv 200, TimerEvent.setTimeoutEv 77, TimerEvent.fireEv 300]).t = 0 ∧
    (timerRun
      (timerExec
        { t := { has_cb := true, mode := ModelTimerMode.singleShot,
                 timeout_rtc_ticks := 20000000, remaining_ticks := 3222795,
                 total_rtc_ticks := 16777205, last_rtc_stamp := 123, cb_active := false },
          hw := some 3222795 }
        TimerEvent.abortEv)
      [TimerEvent.fireEv 200, TimerEvent.setTimeoutEv 77, TimerEvent.fireEv 300]).hw = none :=
  c6_abort_leaves_idle _ [TimerEvent.fireEv 200, TimerEvent.setTimeoutEv 77, TimerEvent.fireEv 300]
    (by decide)

/- ## Claim C9 -/

/-- Dispatch with a user callback that does not touch the timer never
changes the configured duration or the callback binding. -/
theorem model_timer_cb_noop_keeps_timeout :
    ∀ (t : model_timer_t) (now : Nat),
      (model_timer_cb model_timer_user_noop t now).1.timeout_rtc_ticks = t.timeout_rtc_ticks ∧
      (model_timer_cb model_timer_user_noop t now).1.has_cb = t.has_cb := by
  intro t now
  unfold model_timer_cb model_timer_user_noop timeout_update_and_schedule
  rcases t with ⟨hc, md, tov, rem, tot, las, act⟩
  dsimp only
  split_ifs <;> simp_all

/-- A schedule call on a timer with a bound callback and a duration at or
above the hardware minimum reports success (whether or not it arms the
hardware itself). -/
theorem model_timer_schedule_status_success :
    ∀ (t : model_timer_t) (now : Nat), t.has_cb = true →
      APP_TIMER_MIN_TIMEOUT_TICKS ≤ t.timeout_rtc_ticks →
      (model_timer_schedule t now).1 = NRF_SUCCESS := by
  intro t now hcb hv
  rcases t with ⟨hc, md, tov, rem, tot, las, act⟩
  simp only at hcb hv
  subst hcb
  have hlt : ¬ (tov < APP_TIMER_MIN_TIMEOUT_TICKS) := by omega
  cases act <;> simp [model_timer_schedule, hlt, timeout_update_and_schedule]

/-- Along any event sequence containing no caller write of the duration
field, a timer whose configured duration is zero and whose callback is bound
keeps both properties: schedule calls fail on the zero duration without
mutating anything, abort re-zeroes the duration, and dispatch never touches
it. -/
theorem timerRun_keeps_timeout_zero :
    ∀ (evs : List TimerEvent) (s : TimerSys),
      (∀ e ∈ evs, isSetTimeoutEv e = false) →
      s.t.timeout_rtc_ticks = 0 → s.t.has_cb = true →
      (timerRun s evs).t.timeout_rtc_ticks = 0 ∧ (timerRun s evs).t.has_cb = true := by
  intro evs
  induction evs with
  | nil => intro s _ h0 hcb; exact ⟨h0, hcb⟩
  | cons e evs ih =>
    intro s h h0 hcb
    have he := h e (by simp)
    have hrest : ∀ e' ∈ evs, isSetTimeoutEv e' = false := fun e' he' => h e' (by simp [he'])
    simp only [timerRun, List.foldl_cons]
    have hstep : (timerExec s e).t.timeout_rtc_ticks = 0 ∧ (timerExec s e).t.has_cb = true := by
      cases e with
      | scheduleEv now =>
        have hfail : model_timer_schedule s.t now = (NRF_ERROR_INVALID_PARAM, s.t, []) := by
          unfold model_timer_schedule
          rw [if_neg (by simp [hcb]), if_pos (by rw [h0]; decide)]
        simp [timerExec, hfail, h0, hcb, NRF_ERROR_INVALID_PARAM, NRF_SUCCESS]
      | abortEv => exact ⟨rfl, by simp [timerExec, model_timer_abort, hcb]⟩
      | fireEv now =>
        rcases hhw : s.hw with _ | a
        · simp [timerExec, hhw, h0, hcb]
        · have hk := model_timer_cb_noop_keeps_timeout s.t now
          simp [timerExec, hhw]
          exact ⟨by rw [hk.1, h0], by rw [hk.2, hcb]⟩
      | setTimeoutEv v => simp [isSetTimeoutEv] at he
    exact ih (timerExec s e) hrest hstep.1 hstep.2

/-- Claim C9: `model_timer_abort` zeroes the configured duration field
itself, so after an abort every `model_timer_schedule` on the same timer —
at any later point of any event sequence in which the caller has not written
a fresh duration — fails with the invalid-duration error, mutates nothing
and arms nothing; once the caller assigns a duration at or above the
hardware minimum, schedule succeeds again. -/
theorem c9_schedule_fails_until_new_duration :
    ∀ (s : TimerSys) (evs : List TimerEvent) (now now2 v : Nat),
      s.t.has_cb = true →
      (∀ e ∈ evs, isSetTimeoutEv e = false) →
        (model_timer_schedule (timerRun (timerExec s TimerEvent.abortEv) evs).t now =
          (NRF_ERROR_INVALID_PARAM, (timerRun (timerExec s TimerEvent.abortEv) evs).t, [])) ∧
        (APP_TIMER_MIN_TIMEOUT_TICKS ≤ v →
          (model_timer_schedule
            { (timerRun (timerExec s TimerEvent.abortEv) evs).t with timeout_rtc_ticks := v }
            now2).1 = NRF_SUCCESS) := by
  intro s evs now now2 v hcb h
  have hrun := timerRun_keeps_timeout_zero evs (timerExec s TimerEvent.abortEv) h rfl
    (by simp [timerExec, model_timer_abort, hcb])
  constructor
  · unfold model_timer_schedule
    rw [if_neg (by simp [hrun.2]), if_pos (by rw [hrun.1]; decide)]
  · intro hv
    exact model_timer_schedule_status_success _ now2 hrun.2 hv

/-- Claim C9, witness: after aborting a concrete running timer and letting
an expiry pass, a schedule at a later time fails with the invalid-duration
error and arms nothing, and succeeds once a fresh 80-tick duration is
assigned. -/
theorem c9_schedule_fails_until_new_duration_witness :
    (model_timer_schedule
      (timerRun
        (timerExec
          { t := { has_cb := true, mode := ModelTimerMode.repeated,
                   timeout_rtc_ticks := 500, remaining_ticks := 0,
                   total_rtc_ticks := 900, last_rtc_stamp := 10, cb_active := false },
            hw := some 500 }
          TimerEvent.abortEv)
        [TimerEvent.fireEv 60]).t 70 =
      (NRF_ERROR_INVALID_PARAM,
        (timerRun
          (timerExec
            { t := { has_cb := true, mode := ModelTimerMode.repeated,
                     timeout_rtc_ticks := 500, remaining_ticks := 0,
                     total_rtc_ticks := 900, last_rtc_stamp := 10, cb_active := false },
              hw := some 500 }
            TimerEvent.abortEv)
          [TimerEvent.fireEv 60]).t, [])) ∧
    (model_timer_schedule
      { (timerRun
          (timerExec
            { t := { has_cb := true, mode := ModelTimerMode.repeated,
                     timeout_rtc_ticks := 500, remaining_ticks := 0,
                     total_rtc_ticks := 900, last_rtc_stamp := 10, cb_active := false },
              hw := some 500 }
            TimerEvent.abortEv)
          [TimerEvent.fireEv 60]).t with timeout_rtc_ticks := 80 } 90).1 = NRF_SUCCESS :=
  ⟨(c9_schedule_fails_until_new_duration _ [TimerEvent.fireEv 60] 70 90 80 rfl (by decide)).1,
   (c9_schedule_fails_until_new_duration _ [TimerEvent.fireEv 60] 70 90 80 rfl (by decide)).2
     (by decide)⟩
